import Mathlib

/-!
Verification development for the pollutionclient_rs repository.

The repository has two source files:
* `src/lib.rs` — the library crate: configuration (`Config`), environment
  parsing (`Config::parse_env`), sink URL normalization (`Config::set_dbserver`),
  response unpacking (`PollResponse::unpack`) and sink client construction
  (`build_client`).
* `src/main.rs` — the binary: it carries its own private copies of `Config`,
  `parse_env`, `set_dbserver` and `build_client`, plus the startup sequence and
  the poll loop in `main`.

Everything below is a shallow embedding of that code.  Rust machine integers
are modeled as `Nat` (the parse functions enforce the `u64` / `u8` ranges, and
the failure counter is shown to stay within range by the loop guard).  Rust
`f32` fields (`lat`, `lon`, the eight pollutant concentrations) are modeled as
`Rat`: every `f32` value is a rational, and the program performs no arithmetic
on them — they are only carried around and compared.  Code that can panic is
modeled with `Option`/`Except`, where `none`/`error` marks the panic.  Network
calls are modeled by an explicit function parameter whose invocations are
recorded in a trace list.
-/

namespace PollutionClient

/-! ## Character-list utilities

Rust `str::rsplit(":")` collects the pieces of a string between occurrences of
the separator, from the right.  Only the number of pieces is ever used by the
code (`colon_check.len()`), and splitting from the right yields exactly as many
pieces as splitting from the left, namely one more than the number of
occurrences of the separator.  We model strings through their character lists.
-/

/-- Number of occurrences of a character in a character list. -/
def countChar (sep : Char) : List Char → Nat
  | [] => 0
  | c :: rest => (if c = sep then 1 else 0) + countChar sep rest

/-- Split a character list at every occurrence of `sep`; the result has one
piece more than the number of occurrences of `sep`.  This is the model of
Rust `split`/`rsplit` followed by `collect` (the direction of the split does
not change the number of pieces). -/
def splitOnChar (sep : Char) : List Char → List (List Char)
  | [] => [[]]
  | c :: rest =>
    match splitOnChar sep rest with
    | [] => [[]]
    | p :: ps => if c = sep then [] :: p :: ps else (c :: p) :: ps

/-- Boolean test that `p` is an initial segment of `t`; model of Rust
`str::starts_with`. -/
def listStartsWith : List Char → List Char → Bool
  | [], _ => true
  | _ :: _, [] => false
  | p :: ps, c :: cs => if p = c then listStartsWith ps cs else false

theorem countChar_append (sep : Char) (l1 l2 : List Char) :
    countChar sep (l1 ++ l2) = countChar sep l1 + countChar sep l2 := by
  induction l1 with
  | nil => simp [countChar]
  | cons c rest ih => simp [countChar, ih, Nat.add_assoc]

theorem splitOnChar_ne_nil (sep : Char) (l : List Char) :
    splitOnChar sep l ≠ [] := by
  cases l with
  | nil => simp [splitOnChar]
  | cons c rest =>
    simp only [splitOnChar]
    cases h : splitOnChar sep rest with
    | nil => simp
    | cons p ps =>
      by_cases hc : c = sep <;> simp [hc]

theorem splitOnChar_length (sep : Char) (l : List Char) :
    (splitOnChar sep l).length = countChar sep l + 1 := by
  induction l with
  | nil => rfl
  | cons c rest ih =>
    simp only [splitOnChar, countChar]
    cases h : splitOnChar sep rest with
    | nil => exact absurd h (splitOnChar_ne_nil sep rest)
    | cons p ps =>
      rw [h] at ih
      by_cases hc : c = sep <;> simp [hc, List.length] at ih ⊢ <;> omega

theorem listStartsWith_append (p t : List Char) :
    listStartsWith p (p ++ t) = true := by
  induction p with
  | nil => rfl
  | cons c cs ih => simpa [listStartsWith] using ih

theorem listStartsWith_exists {p t : List Char}
    (h : listStartsWith p t = true) : ∃ u, t = p ++ u := by
  induction p generalizing t with
  | nil => exact ⟨t, rfl⟩
  | cons c cs ih =>
    cases t with
    | nil => simp [listStartsWith] at h
    | cons d ds =>
      simp only [listStartsWith] at h
      by_cases hc : c = d
      · simp only [hc, if_pos rfl] at h
        obtain ⟨u, hu⟩ := ih h
        exact ⟨u, by simp [hc, hu]⟩
      · simp [hc] at h

theorem listStartsWith_mono {p t : List Char}
    (h : listStartsWith p t = true) (u : List Char) :
    listStartsWith p (t ++ u) = true := by
  obtain ⟨v, rfl⟩ := listStartsWith_exists h
  rw [List.append_assoc]
  exact listStartsWith_append p (v ++ u)

theorem countChar_le_of_startsWith {sep : Char} {p t : List Char}
    (h : listStartsWith p t = true) :
    countChar sep p ≤ countChar sep t := by
  obtain ⟨v, rfl⟩ := listStartsWith_exists h
  rw [countChar_append]
  omega

/-- Character list of the scheme marker checked by `starts_with("http://")`. -/
def httpSchemeChars : List Char := "http://".data

/-- Character list of the scheme marker checked by `starts_with("https://")`. -/
def httpsSchemeChars : List Char := "https://".data

/-- Character list of the default-port text appended by `format!("{}:8086", ...)`. -/
def portChars : List Char := ":8086".data

theorem countChar_httpSchemeChars : countChar ':' httpSchemeChars = 1 := by decide

theorem countChar_httpsSchemeChars : countChar ':' httpsSchemeChars = 1 := by decide

theorem countChar_portChars : countChar ':' portChars = 1 := by decide

/-! ## Rust unsigned-integer parsing

`"s".parse::<uN>()` accepts an optional leading `+`, then one or more ASCII
digits, and fails on anything else or on a value outside the range of the
target type.  The code only ever uses it through `unwrap_or(default)`.
-/

/-- Model of Rust `str::parse` for an unsigned integer type whose maximum
value is `maxVal`: optional leading plus sign, then a nonempty run of ASCII
digits whose value must not exceed `maxVal`; `none` models `Err`. -/
def parseUInt (maxVal : Nat) (s : String) : Option Nat :=
  let ds : List Char :=
    match s.data with
    | '+' :: rest => rest
    | l => l
  if ds = [] then none
  else if ds.all Char.isDigit then
    let v := ds.foldl (fun a c => a * 10 + (c.toNat - '0'.toNat)) 0
    if v ≤ maxVal then some v else none
  else none

/-- Rust `parse::<u64>()`. -/
def parseU64 (s : String) : Option Nat := parseUInt (2 ^ 64 - 1) s

/-- Rust `parse::<u8>()`. -/
def parseU8 (s : String) : Option Nat := parseUInt 255 s

/-! ## Data model shared by lib.rs and main.rs

`ZipLoc`, `Components`, `MainAqi`, `PollList` and `PollResponse` are declared
identically in both source files (main.rs has private copies).  `lat`, `lon`
and the pollutant concentrations are `f32` in the source, modeled as `Rat`;
`aqi` is `i8`, modeled as `Int`.
-/

/-- Geocoding response (`struct ZipLoc`). -/
structure ZipLoc where
  zip : String
  name : String
  lat : Rat
  lon : Rat
  country : String
deriving DecidableEq, Repr

/-- Pollutant concentrations (`struct Components`). -/
structure Components where
  co : Rat
  no : Rat
  no2 : Rat
  o3 : Rat
  so2 : Rat
  pm2_5 : Rat
  pm10 : Rat
  nh3 : Rat
deriving DecidableEq, Repr

/-- Air quality index wrapper (`struct MainAqi`); `aqi : i8`. -/
structure MainAqi where
  aqi : Int
deriving DecidableEq, Repr

/-- One entry of the upstream response list (`struct PollList`). -/
structure PollList where
  components : Components
  main : MainAqi
deriving DecidableEq, Repr

/-- The upstream pollution response (`struct PollResponse`). -/
structure PollResponse where
  list : List PollList
deriving DecidableEq, Repr

/-- Errors of the `ureq` HTTP crate as matched by the code:
`ureq::Error::Status(code, resp)` and `ureq::Error::Transport(trans)`. -/
inductive UreqErr where
  | status (code : Nat) (text : String)
  | transport (kind : String) (msg : String)
deriving DecidableEq, Repr

/-- A geocoding network request as issued by `get_coords_zipcode(zip, country,
apikey)`: the URL is determined by these three arguments.  The functions that
perform network traffic are parameterized by a `GeoFn` and record each call. -/
structure GeoCall where
  zip : String
  country : String
  apikey : String
deriving DecidableEq, Repr

/-- The behaviour of the geocoding endpoint, abstracted: an answer (or a
ureq-level error) for each request. -/
abbrev GeoFn := String → String → String → Except UreqErr ZipLoc

/-- The environment-variable surface read by `parse_env` (both versions).
`none` models an unset variable. -/
structure Env where
  apiKey : Option String
  pollZip : Option String
  pollCountry : Option String
  pollTiming : Option String
  dbName : Option String
  dbServer : Option String
  dbUser : Option String
  dbPass : Option String
  maxRetry : Option String
  token : Option String
deriving DecidableEq, Repr

/-- The flat record written to the sink (`struct PollUpdate` in lib.rs, with
the `location` tag).  `time` is the capture timestamp `Utc::now()`, modeled as
an abstract `Nat` supplied by the caller of `unpack`. -/
structure PollUpdate where
  time : Nat
  location : String
  aqi : Int
  co : Rat
  no : Rat
  no2 : Rat
  o3 : Rat
  so2 : Rat
  pm2_5 : Rat
  pm10 : Rat
  nh3 : Rat
deriving DecidableEq, Repr

/-- Authentication mode of an influxdb `Client`: plain (`Client::new`), basic
(`with_auth`) or token (`with_token`). -/
inductive InfluxAuth where
  | anon
  | basic (user : String) (pass : String)
  | bearer (tok : String)
deriving DecidableEq, Repr

/-- An influxdb `Client` as far as the code observes it: the url and database
it was created with and the authentication mode attached to it. -/
structure Client where
  server : String
  dbname : String
  auth : InfluxAuth
deriving DecidableEq, Repr

namespace Lib

/-! ## lib.rs: `Config` and its methods -/

/-- `struct Config` of lib.rs.  The source declares the `token` field with the
ill-typed text `token: None`; every use (`ConfigFile`, `set_token`,
`token.is_some()`, `with_token(...unwrap())`) fixes it as `Option<String>`,
which is what we embed.  `timing : u64` and `max_retry : u8` are `Nat`. -/
structure Config where
  apikey : Option String
  location : Option ZipLoc
  timing : Nat
  dbname : Option String
  dbserver : Option String
  dbuser : Option String
  dbpass : Option String
  max_retry : Nat
  token : Option String
deriving DecidableEq, Repr

/-- `impl Default for Config` (lib.rs): timing 3600, max_retry 3, all else unset. -/
def Config.default : Config :=
  { apikey := none, location := none, timing := 3600, dbname := none
    dbserver := none, dbuser := none, dbpass := none, max_retry := 3
    token := none }

/-- `Config::new` (lib.rs) returns `Config::default()`. -/
def Config.new : Config := Config.default

def Config.set_loc (self : Config) (new_loc : ZipLoc) : Config :=
  { self with location := some new_loc }

def Config.set_key (self : Config) (new_key : String) : Config :=
  { self with apikey := some new_key }

def Config.set_timing (self : Config) (new_timing : Nat) : Config :=
  { self with timing := new_timing }

def Config.set_dbname (self : Config) (new_dbname : String) : Config :=
  { self with dbname := some new_dbname }

def Config.set_dbuser (self : Config) (new_dbuser : String) : Config :=
  { self with dbuser := some new_dbuser }

def Config.set_dbpass (self : Config) (new_dbpass : String) : Config :=
  { self with dbpass := some new_dbpass }

/-- Scheme step of `Config::set_dbserver` (lib.rs 128-135): keep an existing
`http://` or `https://` scheme, otherwise prepend `http://`. -/
def withScheme (s : List Char) : List Char :=
  if listStartsWith httpSchemeChars s then s
  else if listStartsWith httpsSchemeChars s then s
  else httpSchemeChars ++ s

/-- Normalization performed by `Config::set_dbserver` (lib.rs 127-141) on the
character list of the argument: the scheme step, then, if the resulting
`final_server` has fewer than three colon-separated pieces, append `:8086`. -/
def normalizeChars (s : List Char) : List Char :=
  let final_server := withScheme s
  if (splitOnChar ':' final_server).length < 3 then final_server ++ portChars
  else final_server

/-- String-level wrapper of `normalizeChars`: the value stored by
`Config::set_dbserver` (lib.rs). -/
def normalizeServer (s : String) : String := ⟨normalizeChars s.data⟩

/-- `Config::set_dbserver` (lib.rs). -/
def Config.set_dbserver (self : Config) (new_dbserver : String) : Config :=
  { self with dbserver := some (normalizeServer new_dbserver) }

def Config.set_maxretry (self : Config) (new_retry : Nat) : Config :=
  { self with max_retry := new_retry }

/-- `Config::set_token` (lib.rs); the source assigns the string to the
option-typed field, i.e. wraps it in `Some`. -/
def Config.set_token (self : Config) (new_token : String) : Config :=
  { self with token := some new_token }

/-- `Config::get_key` (lib.rs): the key, or the sentinel `"NOAPISET"`. -/
def Config.get_key (self : Config) : String :=
  match self.apikey with
  | some key => key
  | none => "NOAPISET"

def Config.get_timing (self : Config) : Nat := self.timing

/-- `Config::get_dbserver` (lib.rs): the stored server, or the default
`"http://localhost:8086"`. -/
def Config.get_dbserver (self : Config) : String :=
  match self.dbserver with
  | some server => server
  | none => "http://localhost:8086"

/-- `Config::get_dbname` (lib.rs): the stored name, or the default `"test"`. -/
def Config.get_dbname (self : Config) : String :=
  match self.dbname with
  | some name => name
  | none => "test"

def Config.get_maxretry (self : Config) : Nat := self.max_retry

/-- Tail of `Config::parse_env` (lib.rs 219-263): everything after the
zip-code block, in source order — timing, dbname, dbserver, dbuser, dbpass,
max_retry, token.  Absent variables fall back exactly as in the source:
timing uses the string `"3600"`, max_retry the string `"3"`, and both parses
are `unwrap_or`-defaulted (3600 and 3). -/
def parseEnvRest (env : Env) (c : Config) : Config :=
  let c1 := c.set_timing ((parseU64 (env.pollTiming.getD "3600")).getD 3600)
  let c2 := match env.dbName with
    | some n => c1.set_dbname n
    | none => c1
  let c3 := match env.dbServer with
    | some s => c2.set_dbserver s
    | none => c2
  let c4 := match env.dbUser with
    | some u => c3.set_dbuser u
    | none => c3
  let c5 := match env.dbPass with
    | some p => c4.set_dbpass p
    | none => c4
  let c6 := c5.set_maxretry ((parseU8 (env.maxRetry.getD "3")).getD 3)
  match env.token with
  | some t => c6.set_token t
  | none => c6

/-- `Config::parse_env` (lib.rs 198-265).  The geocoding call
`get_coords_zipcode(zip, country, self.get_key())` is the only fallible and
the only network-touching step; it is given by the `geo` parameter and each
issued request is returned in the trace list.  When the zip variable is set,
the country defaults to `"US"` and the call is made with the current key —
the sentinel `"NOAPISET"` when no key is set — before anything else can
reject the configuration; a ureq error is propagated (`?`). -/
def Config.parse_env (geo : GeoFn) (env : Env) :
    Except UreqErr Config × List GeoCall :=
  let c0 := Config.new
  let c1 := match env.apiKey with
    | some k => c0.set_key k
    | none => c0
  match env.pollZip with
  | none => (.ok (parseEnvRest env c1), [])
  | some z =>
    let country := match env.pollCountry with
      | some c => c
      | none => "US"
    match geo z country c1.get_key with
    | .error e => (.error e, [⟨z, country, c1.get_key⟩])
    | .ok loc => (.ok (parseEnvRest env (c1.set_loc loc)), [⟨z, country, c1.get_key⟩])

/-- `build_client` (lib.rs 471-492).  The half-set credential checks panic in
the source; `Except.error` carries the panic message.  With a password the
client gets basic auth, otherwise a token if set, otherwise no auth. -/
def build_client (current_config : Config) : Except String Client :=
  match current_config.dbpass with
  | none =>
    match current_config.dbuser with
    | some _ => .error "InfluxDB user set but password is not."
    | none =>
      match current_config.token with
      | some t =>
        .ok ⟨current_config.get_dbserver, current_config.get_dbname, .bearer t⟩
      | none =>
        .ok ⟨current_config.get_dbserver, current_config.get_dbname, .anon⟩
  | some p =>
    match current_config.dbuser with
    | none => .error "InfluxDB password added but not user! Unable to proceed."
    | some u =>
      .ok ⟨current_config.get_dbserver, current_config.get_dbname, .basic u p⟩

end Lib

/-- `PollResponse::unpack` (lib.rs 397-408).  The source indexes `self.list[0]`
with no emptiness check and its return type `PollUpdate` has no error channel,
so on an empty list the indexing panics: `none` models that panic.  `now`
stands for `Utc::now()`; the location tag is the literal `"pending"`. -/
def PollResponse.unpack (self : PollResponse) (now : Nat) : Option PollUpdate :=
  match self.list with
  | [] => none
  | entry :: _ =>
    some { time := now, location := "pending", aqi := entry.main.aqi
           co := entry.components.co, no := entry.components.no
           no2 := entry.components.no2, o3 := entry.components.o3
           so2 := entry.components.so2, pm2_5 := entry.components.pm2_5
           pm10 := entry.components.pm10, nh3 := entry.components.nh3 }

namespace Bin

/-! ## main.rs: the private `Config` copy of the binary

main.rs declares its own `Config` (no `token` field), its own `new` (note the
initial `timing: 60`), its own `set_dbserver` (which checks only the `http://`
scheme and counts the colons of the raw argument rather than of the
scheme-completed string) and its own `parse_env` and `build_client`.
-/

/-- `struct Config` of main.rs (no `token` field). -/
structure Config where
  apikey : Option String
  location : Option ZipLoc
  timing : Nat
  dbname : Option String
  dbserver : Option String
  dbuser : Option String
  dbpass : Option String
  max_retry : Nat
deriving DecidableEq, Repr

/-- `Config::new` (main.rs 23-25): note `timing: 60`, unlike the lib default. -/
def Config.new : Config :=
  { apikey := none, location := none, timing := 60, dbname := none
    dbserver := none, dbuser := none, dbpass := none, max_retry := 3 }

def Config.set_loc (self : Config) (new_loc : ZipLoc) : Config :=
  { self with location := some new_loc }

def Config.set_key (self : Config) (new_key : String) : Config :=
  { self with apikey := some new_key }

def Config.set_timing (self : Config) (new_timing : Nat) : Config :=
  { self with timing := new_timing }

def Config.set_dbname (self : Config) (new_dbname : String) : Config :=
  { self with dbname := some new_dbname }

def Config.set_dbuser (self : Config) (new_dbuser : String) : Config :=
  { self with dbuser := some new_dbuser }

def Config.set_dbpass (self : Config) (new_dbpass : String) : Config :=
  { self with dbpass := some new_dbpass }

/-- Scheme step of `Config::set_dbserver` of main.rs (46-48): prepend
`http://` unless the argument already starts with it (there is no `https://`
case in this copy). -/
def withScheme (s : List Char) : List Char :=
  if listStartsWith httpSchemeChars s then s
  else httpSchemeChars ++ s

/-- Normalization performed by `Config::set_dbserver` of main.rs (44-54): the
scheme step, then append `:8086` when the RAW argument `new_dbserver` — not
the scheme-completed `final_server` — has fewer than three colon-separated
pieces. -/
def normalizeChars (s : List Char) : List Char :=
  let final_server := withScheme s
  if (splitOnChar ':' s).length < 3 then final_server ++ portChars
  else final_server

/-- String-level wrapper of `Bin.normalizeChars`: the value stored by
`Config::set_dbserver` (main.rs). -/
def normalizeServer (s : String) : String := ⟨normalizeChars s.data⟩

/-- `Config::set_dbserver` (main.rs). -/
def Config.set_dbserver (self : Config) (new_dbserver : String) : Config :=
  { self with dbserver := some (normalizeServer new_dbserver) }

def Config.set_maxretry (self : Config) (new_retry : Nat) : Config :=
  { self with max_retry := new_retry }

/-- `Config::get_key` (main.rs): the key, or the sentinel `"NOAPISET"`. -/
def Config.get_key (self : Config) : String :=
  match self.apikey with
  | some key => key
  | none => "NOAPISET"

def Config.get_timing (self : Config) : Nat := self.timing

def Config.get_dbserver (self : Config) : String :=
  match self.dbserver with
  | some server => server
  | none => "http://localhost:8086"

def Config.get_dbname (self : Config) : String :=
  match self.dbname with
  | some name => name
  | none => "test"

def Config.get_maxretry (self : Config) : Nat := self.max_retry

/-- Tail of `Config::parse_env` (main.rs 109-146): timing, dbname, dbserver,
dbuser, dbpass, max_retry, in source order (main.rs reads no token variable). -/
def parseEnvRest (env : Env) (c : Config) : Config :=
  let c1 := c.set_timing ((parseU64 (env.pollTiming.getD "3600")).getD 3600)
  let c2 := match env.dbName with
    | some n => c1.set_dbname n
    | none => c1
  let c3 := match env.dbServer with
    | some s => c2.set_dbserver s
    | none => c2
  let c4 := match env.dbUser with
    | some u => c3.set_dbuser u
    | none => c3
  let c5 := match env.dbPass with
    | some p => c4.set_dbpass p
    | none => c4
  c5.set_maxretry ((parseU8 (env.maxRetry.getD "3")).getD 3)

/-- `Config::parse_env` (main.rs 88-148): identical to the lib version except
for the starting value `Config::new` (timing 60), the main-specific
`set_dbserver` inside the tail, and the absence of the token variable. -/
def Config.parse_env (geo : GeoFn) (env : Env) :
    Except UreqErr Config × List GeoCall :=
  let c0 := Config.new
  let c1 := match env.apiKey with
    | some k => c0.set_key k
    | none => c0
  match env.pollZip with
  | none => (.ok (parseEnvRest env c1), [])
  | some z =>
    let country := match env.pollCountry with
      | some c => c
      | none => "US"
    match geo z country c1.get_key with
    | .error e => (.error e, [⟨z, country, c1.get_key⟩])
    | .ok loc => (.ok (parseEnvRest env (c1.set_loc loc)), [⟨z, country, c1.get_key⟩])

/-- `build_client` (main.rs 254-273): same credential-pair checks as the lib
version, but no token branch — without a password the client is plain. -/
def build_client (current_config : Config) : Except String Client :=
  match current_config.dbpass with
  | none =>
    match current_config.dbuser with
    | some _ =>
      .error "InfluxDB user set but password is not. Please add OPENWEATHER_INFLUXDB_DBPASS and try again"
    | none =>
      .ok ⟨current_config.get_dbserver, current_config.get_dbname, .anon⟩
  | some p =>
    match current_config.dbuser with
    | none =>
      .error "InfluxDB user not added but password added. Set OPENWEATHER_INFLUXDB_DBUSER and OPENWEATHER_INFLUXDB_DBPASS and try again"
    | some u =>
      .ok ⟨current_config.get_dbserver, current_config.get_dbname, .basic u p⟩

/-- Extraction done inline in the success branch of the loop (main.rs
316-318): `unpacked.list[0].main.clone()` and `unpacked.list[0].components.clone()`.
Indexing an empty vector panics and the surrounding code has no error path
for it; `none` models that panic. -/
def extractFirst (r : PollResponse) : Option (MainAqi × Components) :=
  match r.list with
  | [] => none
  | entry :: _ => some (entry.main, entry.components)

/-- The check `running_coords == ["0".to_string(), "0".to_string()]` (main.rs
289-292).  `get_coords` stringifies the f32 coordinates and yields
`["0", "0"]` when the location is unset; for a set location, an f32
`to_string()` equals `"0"` exactly when the value is (positive) zero, which
for our rational model is equality with 0. -/
def coordsDefault (c : Config) : Bool :=
  match c.location with
  | none => true
  | some l => decide (l.lat = 0 ∧ l.lon = 0)

/-- How far startup (main.rs 277-303) gets: each `fatal...` constructor is one
of the panics on the way, in source order, and `ready` means the loop is
entered with the built client. -/
inductive StartupResult where
  | fatalParse (e : UreqErr)
  | fatalApiKey
  | fatalNoLocation
  | fatalDefaultCoords
  | fatalNoDbServer
  | fatalNoDbName
  | fatalHalfCreds (msg : String)
  | ready (client : Client)
deriving DecidableEq, Repr

/-- Startup sequence of `main` (main.rs 277-303), with the geocoding traffic
of `parse_env` recorded: parse the environment (a ureq error panics with the
"Unable to set configuration" message, `fatalParse`), then in order check the
API key ("API key is not set ..."), the location, the default-coordinates
sentinel, the dbserver and dbname variables, and finally build the client. -/
def startup (geo : GeoFn) (env : Env) : StartupResult × List GeoCall :=
  match Config.parse_env geo env with
  | (.error e, calls) => (.fatalParse e, calls)
  | (.ok cfg, calls) =>
    match cfg.apikey with
    | none => (.fatalApiKey, calls)
    | some _ =>
      match cfg.location with
      | none => (.fatalNoLocation, calls)
      | some _ =>
        if coordsDefault cfg then (.fatalDefaultCoords, calls)
        else
          match cfg.dbserver with
          | none => (.fatalNoDbServer, calls)
          | some _ =>
            match cfg.dbname with
            | none => (.fatalNoDbName, calls)
            | some _ =>
              match build_client cfg with
              | .error m => (.fatalHalfCreds m, calls)
              | .ok cl => (.ready cl, calls)

/-! ## The poll loop (main.rs 307-336)

The loop interacts with the environment once per iteration: a fetch that
succeeds or fails, and on success a sink write that succeeds or fails.  One
iteration is summarized by a `CycleOut` letter, and the loop is run against a
finite list of such outcomes; `RunResult.running` means the supplied outcomes
were exhausted with the loop still going.  `checks` records the value of
`error_count` at each evaluation of the `while` condition and `sleeps` records
each duration (in seconds) passed to `thread::sleep`, in order.

`error_count` is a `u8` in the source; the guard `error_count <
running_config.get_maxretry()` (with `max_retry : u8`) ensures the increment
never overflows, so `Nat` is a faithful model.
-/

/-- Environment behaviour of one loop iteration: `ok` — fetch succeeded with a
nonempty list and the write succeeded; `emptyList` — fetch succeeded but the
response list was empty (the `list[0]` indexing panics); `writeFail` — fetch
succeeded but `write_to_db` failed (the `?` on line 323 aborts `main`);
`fetchFail` — `get_pollution` failed. -/
inductive CycleOut where
  | ok
  | emptyList
  | writeFail
  | fetchFail
deriving DecidableEq, Repr

/-- Terminal observation of a loop run. -/
inductive RunResult where
  | running (count : Nat)
  | maxErrors (count : Nat)
  | writeError (count : Nat)
  | emptyFatal (count : Nat)
deriving DecidableEq, Repr

/-- Full observation of a loop run. -/
structure LoopRun where
  result : RunResult
  checks : List Nat
  sleeps : List Nat
deriving DecidableEq, Repr

/-- The `while error_count < max_retry` loop (main.rs 309-336).  On a
successful fetch the counter is left unchanged and the loop sleeps the full
`timing`; on a failed fetch the counter is incremented and the loop sleeps the
same full `timing` (the single `thread::sleep` on line 334 sits after the
if/else, in both paths); leaving the loop panics with "Max errors reached!". -/
def pollLoop (maxR timing count : Nat) : List CycleOut → LoopRun
  | [] =>
    if maxR ≤ count then ⟨.maxErrors count, [count], []⟩
    else ⟨.running count, [count], []⟩
  | o :: rest =>
    if maxR ≤ count then ⟨.maxErrors count, [count], []⟩
    else
      match o with
      | .ok =>
        let r := pollLoop maxR timing count rest
        ⟨r.result, count :: r.checks, timing :: r.sleeps⟩
      | .emptyList => ⟨.emptyFatal count, [count], []⟩
      | .writeFail => ⟨.writeError count, [count], []⟩
      | .fetchFail =>
        let r := pollLoop maxR timing (count + 1) rest
        ⟨r.result, count :: r.checks, timing :: r.sleeps⟩

theorem pollLoop_sleeps_all (maxR timing : Nat) :
    ∀ (outs : List CycleOut) (count : Nat),
      ((pollLoop maxR timing count outs).sleeps.all fun d => d == timing) = true := by
  intro outs
  induction outs with
  | nil =>
    intro count
    by_cases h : maxR ≤ count <;> simp [pollLoop, h]
  | cons o rest ih =>
    intro count
    by_cases h : maxR ≤ count
    · simp [pollLoop, h]
    · cases o <;> simp [pollLoop, h, ih]

theorem pollLoop_checks_le (maxR timing : Nat) :
    ∀ (outs : List CycleOut) (count : Nat), count ≤ maxR →
      ∀ c ∈ (pollLoop maxR timing count outs).checks, c ≤ maxR := by
  intro outs
  induction outs with
  | nil =>
    intro count hle c hc
    by_cases h : maxR ≤ count <;> simp [pollLoop, h] at hc <;> omega
  | cons o rest ih =>
    intro count hle c hc
    by_cases h : maxR ≤ count
    · simp [pollLoop, h] at hc; omega
    · cases o with
      | ok =>
        simp [pollLoop, h] at hc
        rcases hc with rfl | hc
        · exact hle
        · exact ih count hle c hc
      | emptyList => simp [pollLoop, h] at hc; omega
      | writeFail => simp [pollLoop, h] at hc; omega
      | fetchFail =>
        simp [pollLoop, h] at hc
        rcases hc with rfl | hc
        · exact hle
        · exact ih (count + 1) (by omega) c hc

theorem pollLoop_maxErrors_eq (maxR timing : Nat) :
    ∀ (outs : List CycleOut) (count : Nat), count ≤ maxR →
      ∀ c, (pollLoop maxR timing count outs).result = .maxErrors c → c = maxR := by
  intro outs
  induction outs with
  | nil =>
    intro count hle c hres
    by_cases h : maxR ≤ count <;> simp [pollLoop, h] at hres
    omega
  | cons o rest ih =>
    intro count hle c hres
    by_cases h : maxR ≤ count
    · simp [pollLoop, h] at hres; omega
    · cases o with
      | ok =>
        simp [pollLoop, h] at hres
        exact ih count hle c hres
      | emptyList => simp [pollLoop, h] at hres
      | writeFail => simp [pollLoop, h] at hres
      | fetchFail =>
        simp [pollLoop, h] at hres
        exact ih (count + 1) (by omega) c hres

theorem pollLoop_maxErrors_mem (maxR timing : Nat) :
    ∀ (outs : List CycleOut) (count : Nat) (c : Nat),
      (pollLoop maxR timing count outs).result = .maxErrors c →
      c ∈ (pollLoop maxR timing count outs).checks := by
  intro outs
  induction outs with
  | nil =>
    intro count c hres
    by_cases h : maxR ≤ count <;> simp [pollLoop, h] at hres ⊢
    omega
  | cons o rest ih =>
    intro count c hres
    by_cases h : maxR ≤ count
    · simp [pollLoop, h] at hres ⊢; omega
    · cases o with
      | ok =>
        simp [pollLoop, h] at hres ⊢
        exact Or.inr (ih count c hres)
      | emptyList => simp [pollLoop, h] at hres
      | writeFail => simp [pollLoop, h] at hres
      | fetchFail =>
        simp [pollLoop, h] at hres ⊢
        exact Or.inr (ih (count + 1) c hres)

theorem pollLoop_mem_maxErrors (maxR timing : Nat) :
    ∀ (outs : List CycleOut) (count : Nat), count ≤ maxR →
      maxR ∈ (pollLoop maxR timing count outs).checks →
      (pollLoop maxR timing count outs).result = .maxErrors maxR := by
  intro outs
  induction outs with
  | nil =>
    intro count hle hmem
    by_cases h : maxR ≤ count <;> simp [pollLoop, h] at hmem ⊢
    · omega
    · omega
  | cons o rest ih =>
    intro count hle hmem
    by_cases h : maxR ≤ count
    · simp [pollLoop, h] at hmem ⊢; omega
    · cases o with
      | ok =>
        simp [pollLoop, h] at hmem ⊢
        rcases hmem with heq | hmem
        · omega
        · exact ih count hle hmem
      | emptyList => simp [pollLoop, h] at hmem; omega
      | writeFail => simp [pollLoop, h] at hmem; omega
      | fetchFail =>
        simp [pollLoop, h] at hmem ⊢
        rcases hmem with heq | hmem
        · omega
        · exact ih (count + 1) (by omega) hmem

end Bin

/-! ## Claim C1 — sleep durations of the poll cycle -/

/-- Claim C1, counterexample to the claim as stated: with the configured
interval T = 3600 and a failing fetch, the loop sleeps 3600 seconds, not
T/2 = 1800 as the claim requires (the single `thread::sleep` of main.rs line
334 runs after both branches). -/
theorem c1_counterexample :
    (Bin.pollLoop 3 3600 0 [Bin.CycleOut.fetchFail]).sleeps = [3600] ∧
    (3600 : Nat) ≠ 3600 / 2 := by
  decide

/-- Claim C1 as amended: for every configured interval T, a cycle whose fetch
and write succeed sleeps exactly T seconds before the next check, and a cycle
whose fetch fails ALSO sleeps exactly T seconds — every sleep the loop ever
performs is the full interval; there is no halved backoff. -/
theorem c1_full_interval_sleep (maxR timing count : Nat)
    (rest outs : List Bin.CycleOut) (h : count < maxR) :
    (Bin.pollLoop maxR timing count (Bin.CycleOut.ok :: rest)).sleeps.head?
        = some timing ∧
    (Bin.pollLoop maxR timing count (Bin.CycleOut.fetchFail :: rest)).sleeps.head?
        = some timing ∧
    ((Bin.pollLoop maxR timing count outs).sleeps.all fun d => d == timing) = true := by
  refine ⟨?_, ?_, Bin.pollLoop_sleeps_all maxR timing outs count⟩ <;>
    simp [Bin.pollLoop, Nat.not_le.mpr h]

/-- Witness for `c1_full_interval_sleep` at T = 3601: the failure-cycle sleep
is the full 3601 seconds (the claim as stated would have required 1800). -/
theorem c1_full_interval_sleep_witness :
    (Bin.pollLoop 3 3601 0 [Bin.CycleOut.ok]).sleeps.head? = some 3601 ∧
    (Bin.pollLoop 3 3601 0 [Bin.CycleOut.fetchFail]).sleeps.head? = some 3601 ∧
    ((Bin.pollLoop 3 3601 0 []).sleeps.all fun d => d == 3601) = true :=
  c1_full_interval_sleep 3 3601 0 [] [] (by decide)

/-! ## Claim C2 — the failure counter is never reset -/

/-- Claim C2, counterexample to the claim as stated: after one fetch failure
followed by one fully successful cycle, the counter at the start of the next
cycle is still 1, not 0 — the success branch of the loop never touches
`error_count`. -/
theorem c2_counterexample :
    (Bin.pollLoop 3 3600 0 [Bin.CycleOut.fetchFail, Bin.CycleOut.ok]).checks
        = [0, 1, 1] ∧
    (1 : Nat) ≠ 0 := by
  decide

/-- Claim C2 as amended: a successful cycle leaves the counter exactly as it
was — the next cycle begins with the same accumulated value, so the counter
counts total failures since startup, not consecutive failures. -/
theorem c2_no_reset (maxR timing count : Nat) (rest : List Bin.CycleOut)
    (h : count < maxR) :
    (Bin.pollLoop maxR timing count (Bin.CycleOut.ok :: rest)).checks
        = count :: (Bin.pollLoop maxR timing count rest).checks ∧
    (Bin.pollLoop maxR timing count (Bin.CycleOut.ok :: rest)).result
        = (Bin.pollLoop maxR timing count rest).result := by
  constructor <;> simp [Bin.pollLoop, Nat.not_le.mpr h]

/-- Witness for `c2_no_reset`: concrete instance with an accumulated count of
1 entering a successful cycle. -/
theorem c2_no_reset_witness :
    (Bin.pollLoop 3 3600 1 [Bin.CycleOut.ok]).checks
        = 1 :: (Bin.pollLoop 3 3600 1 []).checks ∧
    (Bin.pollLoop 3 3600 1 [Bin.CycleOut.ok]).result
        = (Bin.pollLoop 3 3600 1 []).result :=
  c2_no_reset 3 3600 1 [] (by decide)

/-! ## Claim C3 — fatal exit exactly at the failure budget -/

/-- Claim C3: starting from a zero counter, the loop panics with the "Max
errors reached!" message exactly when the counter reaches the configured
maximum (a sink-write failure or an empty-list panic exit without it); every
counter value observed at the `while` check is at most the maximum; and the
counter value at the fatal exit is exactly the maximum. -/
theorem c3_max_errors_iff (maxR timing : Nat) (outs : List Bin.CycleOut) :
    ((∃ c, (Bin.pollLoop maxR timing 0 outs).result = .maxErrors c) ↔
        maxR ∈ (Bin.pollLoop maxR timing 0 outs).checks) ∧
    (∀ c ∈ (Bin.pollLoop maxR timing 0 outs).checks, c ≤ maxR) ∧
    (∀ c, (Bin.pollLoop maxR timing 0 outs).result = .maxErrors c → c = maxR) := by
  refine ⟨⟨?_, ?_⟩, Bin.pollLoop_checks_le maxR timing outs 0 (Nat.zero_le maxR),
    Bin.pollLoop_maxErrors_eq maxR timing outs 0 (Nat.zero_le maxR)⟩
  · rintro ⟨c, hres⟩
    have hc := Bin.pollLoop_maxErrors_eq maxR timing outs 0 (Nat.zero_le maxR) c hres
    exact hc ▸ Bin.pollLoop_maxErrors_mem maxR timing outs 0 c hres
  · intro hmem
    exact ⟨maxR, Bin.pollLoop_mem_maxErrors maxR timing outs 0 (Nat.zero_le maxR) hmem⟩

/-- Witness for `c3_max_errors_iff`: three straight failures against a budget
of three produce the fatal exit with the counter exactly at the budget. -/
theorem c3_max_errors_iff_witness :
    (∃ c, (Bin.pollLoop 3 3600 0
      [Bin.CycleOut.fetchFail, Bin.CycleOut.fetchFail, Bin.CycleOut.fetchFail]).result
        = .maxErrors c) ∧
    (3 : Nat) ∈ (Bin.pollLoop 3 3600 0
      [Bin.CycleOut.fetchFail, Bin.CycleOut.fetchFail, Bin.CycleOut.fetchFail]).checks :=
  ⟨(c3_max_errors_iff 3 3600
      [Bin.CycleOut.fetchFail, Bin.CycleOut.fetchFail, Bin.CycleOut.fetchFail]).1.mpr
      (by decide),
   by decide⟩

/-! ## Claim C6 — sink URL normalization -/

namespace Lib

theorem withScheme_starts (s : List Char) :
    listStartsWith httpSchemeChars (withScheme s) = true ∨
    listStartsWith httpsSchemeChars (withScheme s) = true := by
  unfold withScheme
  by_cases h1 : listStartsWith httpSchemeChars s = true
  · left; simp [h1]
  · by_cases h2 : listStartsWith httpsSchemeChars s = true
    · right; simp [h1, h2]
    · left
      simp only [h1, h2, if_false, Bool.false_eq_true]
      exact listStartsWith_append httpSchemeChars s

theorem withScheme_count (s : List Char) :
    1 ≤ countChar ':' (withScheme s) := by
  rcases withScheme_starts s with h | h
  · have := @countChar_le_of_startsWith ':' _ _ h
    rw [countChar_httpSchemeChars] at this
    exact this
  · have := @countChar_le_of_startsWith ':' _ _ h
    rw [countChar_httpsSchemeChars] at this
    exact this

theorem withScheme_fixed {t : List Char}
    (h : listStartsWith httpSchemeChars t = true ∨
         listStartsWith httpsSchemeChars t = true) :
    withScheme t = t := by
  unfold withScheme
  rcases h with h | h
  · simp [h]
  · by_cases h1 : listStartsWith httpSchemeChars t = true <;> simp [h1, h]

theorem normalizeChars_starts (s : List Char) :
    listStartsWith httpSchemeChars (normalizeChars s) = true ∨
    listStartsWith httpsSchemeChars (normalizeChars s) = true := by
  simp only [normalizeChars]
  by_cases hsplit : (splitOnChar ':' (withScheme s)).length < 3
  · rw [if_pos hsplit]
    rcases withScheme_starts s with h | h
    · exact Or.inl (listStartsWith_mono h portChars)
    · exact Or.inr (listStartsWith_mono h portChars)
  · rw [if_neg hsplit]
    exact withScheme_starts s

theorem normalizeChars_count (s : List Char) :
    2 ≤ countChar ':' (normalizeChars s) := by
  have hc := withScheme_count s
  simp only [normalizeChars, splitOnChar_length]
  by_cases hsplit : countChar ':' (withScheme s) + 1 < 3
  · rw [if_pos hsplit, countChar_append, countChar_portChars]
    omega
  · rw [if_neg hsplit]
    omega

theorem normalizeChars_fixed {r : List Char}
    (h1 : listStartsWith httpSchemeChars r = true ∨
          listStartsWith httpsSchemeChars r = true)
    (h2 : 2 ≤ countChar ':' r) :
    normalizeChars r = r := by
  simp only [normalizeChars, withScheme_fixed h1, splitOnChar_length]
  rw [if_neg (by omega)]

theorem normalizeChars_idem (s : List Char) :
    normalizeChars (normalizeChars s) = normalizeChars s :=
  normalizeChars_fixed (normalizeChars_starts s) (normalizeChars_count s)

theorem normalizeServer_idem (s : String) :
    normalizeServer (normalizeServer s) = normalizeServer s :=
  congrArg String.mk (normalizeChars_idem s.data)

end Lib

namespace Bin

theorem binScheme_starts (s : List Char) :
    listStartsWith httpSchemeChars (withScheme s) = true := by
  unfold withScheme
  by_cases h1 : listStartsWith httpSchemeChars s = true
  · simp [h1]
  · simp only [h1, if_false, Bool.false_eq_true]
    exact listStartsWith_append httpSchemeChars s

theorem binScheme_fixed {t : List Char}
    (h : listStartsWith httpSchemeChars t = true) :
    withScheme t = t := by
  unfold withScheme
  simp [h]

theorem binScheme_count_ge (s : List Char) :
    countChar ':' s ≤ countChar ':' (withScheme s) := by
  unfold withScheme
  by_cases h1 : listStartsWith httpSchemeChars s = true <;>
    simp [h1, countChar_append]

theorem binNormalizeChars_starts (s : List Char) :
    listStartsWith httpSchemeChars (normalizeChars s) = true := by
  simp only [normalizeChars]
  by_cases hsplit : (splitOnChar ':' s).length < 3
  · rw [if_pos hsplit]
    exact listStartsWith_mono (binScheme_starts s) portChars
  · rw [if_neg hsplit]
    exact binScheme_starts s

theorem binNormalizeChars_count (s : List Char) :
    2 ≤ countChar ':' (normalizeChars s) := by
  have hws : 1 ≤ countChar ':' (withScheme s) := by
    have := @countChar_le_of_startsWith ':' _ _ (binScheme_starts s)
    rw [countChar_httpSchemeChars] at this
    exact this
  have hge := binScheme_count_ge s
  simp only [normalizeChars, splitOnChar_length]
  by_cases hsplit : countChar ':' s + 1 < 3
  · rw [if_pos hsplit, countChar_append, countChar_portChars]
    omega
  · rw [if_neg hsplit]
    omega

theorem binNormalizeChars_fixed {r : List Char}
    (h1 : listStartsWith httpSchemeChars r = true)
    (h2 : 2 ≤ countChar ':' r) :
    normalizeChars r = r := by
  simp only [normalizeChars, binScheme_fixed h1, splitOnChar_length]
  rw [if_neg (by omega)]

theorem binNormalizeChars_idem (s : List Char) :
    normalizeChars (normalizeChars s) = normalizeChars s :=
  binNormalizeChars_fixed (binNormalizeChars_starts s) (binNormalizeChars_count s)

theorem binNormalizeServer_idem (s : String) :
    normalizeServer (normalizeServer s) = normalizeServer s :=
  congrArg String.mk (binNormalizeChars_idem s.data)

end Bin

/-- Claim C6, counterexample to the claim as stated: the binary keeps its own
copy of the normalization (main.rs `Config::set_dbserver`, one of the cited
sources of the claim) which counts the colons of the raw argument and knows
only the `http://` scheme, so it violates two of the four documented shapes:
`"localhost:9000"` gains a second port and `"https://host:9000"` is not left
unchanged. -/
theorem c6_counterexample :
    Bin.normalizeServer "localhost:9000" = "http://localhost:9000:8086" ∧
    "http://localhost:9000:8086" ≠ "http://localhost:9000" ∧
    Bin.normalizeServer "https://host:9000" = "http://https://host:9000" ∧
    "http://https://host:9000" ≠ "https://host:9000" := by
  refine ⟨?_, by decide, ?_, by decide⟩ <;> rfl

namespace Lib

theorem parseEnvRest_spec (env : Env) (c : Config) :
    (parseEnvRest env c).apikey = c.apikey ∧
    (parseEnvRest env c).location = c.location ∧
    (parseEnvRest env c).timing = (parseU64 (env.pollTiming.getD "3600")).getD 3600 ∧
    (parseEnvRest env c).max_retry = (parseU8 (env.maxRetry.getD "3")).getD 3 ∧
    (parseEnvRest env c).dbname
      = (match env.dbName with | some n => some n | none => c.dbname) ∧
    (parseEnvRest env c).dbserver
      = (match env.dbServer with
          | some s => some (normalizeServer s)
          | none => c.dbserver) := by
  simp only [parseEnvRest]
  cases env.token <;> cases env.dbPass <;> cases env.dbUser <;>
    cases env.dbServer <;> cases env.dbName <;>
    simp [Config.set_timing, Config.set_dbname, Config.set_dbserver,
      Config.set_dbuser, Config.set_dbpass, Config.set_maxretry, Config.set_token]

theorem parse_env_nozip (geo : GeoFn) (env : Env) (hz : env.pollZip = none) :
    Config.parse_env geo env =
      (.ok (parseEnvRest env (match env.apiKey with
        | some k => Config.new.set_key k
        | none => Config.new)), []) := by
  simp [Config.parse_env, hz]

theorem parse_env_zip_ok (geo : GeoFn) (env : Env) (z : String) (loc : ZipLoc)
    (hz : env.pollZip = some z)
    (hg : geo z (env.pollCountry.getD "US") (env.apiKey.getD "NOAPISET") = .ok loc) :
    Config.parse_env geo env =
      (.ok (parseEnvRest env ((match env.apiKey with
          | some k => Config.new.set_key k
          | none => Config.new).set_loc loc)),
       [⟨z, env.pollCountry.getD "US", env.apiKey.getD "NOAPISET"⟩]) := by
  cases hk : env.apiKey <;> cases hcs : env.pollCountry <;>
    rw [hk, hcs] at hg <;> simp only [Option.getD] at hg <;>
    simp [Config.parse_env, hz, hk, hcs, hg, Config.get_key, Config.set_key,
      Config.new, Config.default]

theorem parse_env_zip_err (geo : GeoFn) (env : Env) (z : String) (e : UreqErr)
    (hz : env.pollZip = some z)
    (hg : geo z (env.pollCountry.getD "US") (env.apiKey.getD "NOAPISET") = .error e) :
    Config.parse_env geo env =
      (.error e, [⟨z, env.pollCountry.getD "US", env.apiKey.getD "NOAPISET"⟩]) := by
  cases hk : env.apiKey <;> cases hcs : env.pollCountry <;>
    rw [hk, hcs] at hg <;> simp only [Option.getD] at hg <;>
    simp [Config.parse_env, hz, hk, hcs, hg, Config.get_key, Config.set_key,
      Config.new, Config.default]

end Lib

namespace Bin

theorem binParseEnvRest_spec (env : Env) (c : Config) :
    (parseEnvRest env c).apikey = c.apikey ∧
    (parseEnvRest env c).location = c.location ∧
    (parseEnvRest env c).timing = (parseU64 (env.pollTiming.getD "3600")).getD 3600 ∧
    (parseEnvRest env c).max_retry = (parseU8 (env.maxRetry.getD "3")).getD 3 ∧
    (parseEnvRest env c).dbname
      = (match env.dbName with | some n => some n | none => c.dbname) ∧
    (parseEnvRest env c).dbserver
      = (match env.dbServer with
          | some s => some (normalizeServer s)
          | none => c.dbserver) := by
  simp only [parseEnvRest]
  cases env.dbPass <;> cases env.dbUser <;>
    cases env.dbServer <;> cases env.dbName <;>
    simp [Config.set_timing, Config.set_dbname, Config.set_dbserver,
      Config.set_dbuser, Config.set_dbpass, Config.set_maxretry]

theorem binParse_env_nozip (geo : GeoFn) (env : Env) (hz : env.pollZip = none) :
    Config.parse_env geo env =
      (.ok (parseEnvRest env (match env.apiKey with
        | some k => Config.new.set_key k
        | none => Config.new)), []) := by
  simp [Config.parse_env, hz]

theorem binParse_env_zip_ok (geo : GeoFn) (env : Env) (z : String) (loc : ZipLoc)
    (hz : env.pollZip = some z)
    (hg : geo z (env.pollCountry.getD "US") (env.apiKey.getD "NOAPISET") = .ok loc) :
    Config.parse_env geo env =
      (.ok (parseEnvRest env ((match env.apiKey with
          | some k => Config.new.set_key k
          | none => Config.new).set_loc loc)),
       [⟨z, env.pollCountry.getD "US", env.apiKey.getD "NOAPISET"⟩]) := by
  cases hk : env.apiKey <;> cases hcs : env.pollCountry <;>
    rw [hk, hcs] at hg <;> simp only [Option.getD] at hg <;>
    simp [Config.parse_env, hz, hk, hcs, hg, Config.get_key, Config.set_key,
      Config.new]

theorem binParse_env_zip_err (geo : GeoFn) (env : Env) (z : String) (e : UreqErr)
    (hz : env.pollZip = some z)
    (hg : geo z (env.pollCountry.getD "US") (env.apiKey.getD "NOAPISET") = .error e) :
    Config.parse_env geo env =
      (.error e, [⟨z, env.pollCountry.getD "US", env.apiKey.getD "NOAPISET"⟩]) := by
  cases hk : env.apiKey <;> cases hcs : env.pollCountry <;>
    rw [hk, hcs] at hg <;> simp only [Option.getD] at hg <;>
    simp [Config.parse_env, hz, hk, hcs, hg, Config.get_key, Config.set_key,
      Config.new]

end Bin

/-- Claim C6 as amended: the library normalization (lib.rs
`Config::set_dbserver`) is a total function, is idempotent, and yields exactly
the four documented shapes; the binary private copy (main.rs
`Config::set_dbserver`) is also total and idempotent and agrees on
`"localhost"` and `"http://host"`, but yields `"http://localhost:9000:8086"`
for `"localhost:9000"` and `"http://https://host:9000"` for
`"https://host:9000"`. -/
theorem c6_normalization (s t : String) :
    (Lib.normalizeServer (Lib.normalizeServer s) = Lib.normalizeServer s) ∧
    Lib.normalizeServer "localhost" = "http://localhost:8086" ∧
    Lib.normalizeServer "localhost:9000" = "http://localhost:9000" ∧
    Lib.normalizeServer "https://host:9000" = "https://host:9000" ∧
    Lib.normalizeServer "http://host" = "http://host:8086" ∧
    (Bin.normalizeServer (Bin.normalizeServer t) = Bin.normalizeServer t) ∧
    Bin.normalizeServer "localhost" = "http://localhost:8086" ∧
    Bin.normalizeServer "localhost:9000" = "http://localhost:9000:8086" ∧
    Bin.normalizeServer "https://host:9000" = "http://https://host:9000" ∧
    Bin.normalizeServer "http://host" = "http://host:8086" := by
  refine ⟨Lib.normalizeServer_idem s, ?_, ?_, ?_, ?_,
    Bin.binNormalizeServer_idem t, ?_, ?_, ?_, ?_⟩ <;> rfl


/-! ## Claim C5 — credential-pair validation in client construction -/

/-- Claim C5: building the sink client from a configuration with exactly one
of username/password set fails with an error (the panic of the source), and a
configuration with both set or both absent produces a client — for the lib.rs
`build_client` and for the main.rs copy alike. -/
theorem c5_credential_pair (c : Lib.Config) (mc : Bin.Config) :
    (c.dbuser.isSome = true → c.dbpass = none →
      ∃ m, Lib.build_client c = .error m) ∧
    (c.dbuser = none → c.dbpass.isSome = true →
      ∃ m, Lib.build_client c = .error m) ∧
    (c.dbuser.isSome = c.dbpass.isSome →
      ∃ cl, Lib.build_client c = .ok cl) ∧
    (mc.dbuser.isSome = true → mc.dbpass = none →
      ∃ m, Bin.build_client mc = .error m) ∧
    (mc.dbuser = none → mc.dbpass.isSome = true →
      ∃ m, Bin.build_client mc = .error m) ∧
    (mc.dbuser.isSome = mc.dbpass.isSome →
      ∃ cl, Bin.build_client mc = .ok cl) := by
  obtain ⟨ak, loc, tm, dn, ds, du, dp, mr, tk⟩ := c
  obtain ⟨ak2, loc2, tm2, dn2, ds2, du2, dp2, mr2⟩ := mc
  refine ⟨?_, ?_, ?_, ?_, ?_, ?_⟩
  · rintro hu rfl
    cases du with
    | none => simp at hu
    | some u => exact ⟨_, rfl⟩
  · rintro rfl hp
    cases dp with
    | none => simp at hp
    | some p => exact ⟨_, rfl⟩
  · intro h
    cases du with
    | none =>
      cases dp with
      | none =>
        cases tk with
        | none => exact ⟨_, rfl⟩
        | some t => exact ⟨_, rfl⟩
      | some p => simp at h
    | some u =>
      cases dp with
      | none => simp at h
      | some p => exact ⟨_, rfl⟩
  · rintro hu rfl
    cases du2 with
    | none => simp at hu
    | some u => exact ⟨_, rfl⟩
  · rintro rfl hp
    cases dp2 with
    | none => simp at hp
    | some p => exact ⟨_, rfl⟩
  · intro h
    cases du2 with
    | none =>
      cases dp2 with
      | none => exact ⟨_, rfl⟩
      | some p => simp at h
    | some u =>
      cases dp2 with
      | none => simp at h
      | some p => exact ⟨_, rfl⟩

/-- Witness for `c5_credential_pair`: the four credential shapes for the lib
client and for the binary client, on concrete configurations. -/
theorem c5_credential_pair_witness :
    (∃ m, Lib.build_client (Lib.Config.new.set_dbuser "u") = .error m) ∧
    (∃ m, Lib.build_client (Lib.Config.new.set_dbpass "p") = .error m) ∧
    (∃ cl, Lib.build_client ((Lib.Config.new.set_dbuser "u").set_dbpass "p") = .ok cl) ∧
    (∃ cl, Lib.build_client Lib.Config.new = .ok cl) ∧
    (∃ m, Bin.build_client (Bin.Config.new.set_dbuser "u") = .error m) ∧
    (∃ m, Bin.build_client (Bin.Config.new.set_dbpass "p") = .error m) ∧
    (∃ cl, Bin.build_client ((Bin.Config.new.set_dbuser "u").set_dbpass "p") = .ok cl) ∧
    (∃ cl, Bin.build_client Bin.Config.new = .ok cl) :=
  ⟨(c5_credential_pair (Lib.Config.new.set_dbuser "u") Bin.Config.new).1 rfl rfl,
   (c5_credential_pair (Lib.Config.new.set_dbpass "p") Bin.Config.new).2.1 rfl rfl,
   (c5_credential_pair ((Lib.Config.new.set_dbuser "u").set_dbpass "p")
      Bin.Config.new).2.2.1 rfl,
   (c5_credential_pair Lib.Config.new Bin.Config.new).2.2.1 rfl,
   (c5_credential_pair Lib.Config.new (Bin.Config.new.set_dbuser "u")).2.2.2.1 rfl rfl,
   (c5_credential_pair Lib.Config.new (Bin.Config.new.set_dbpass "p")).2.2.2.2.1 rfl rfl,
   (c5_credential_pair Lib.Config.new
      ((Bin.Config.new.set_dbuser "u").set_dbpass "p")).2.2.2.2.2 rfl,
   (c5_credential_pair Lib.Config.new Bin.Config.new).2.2.2.2.2 rfl⟩

/-- Witness for `c6_normalization` at a concrete input. -/
theorem c6_normalization_witness :
    Lib.normalizeServer (Lib.normalizeServer "localhost")
        = Lib.normalizeServer "localhost" ∧
    Bin.normalizeServer (Bin.normalizeServer "localhost")
        = Bin.normalizeServer "localhost" :=
  ⟨(c6_normalization "localhost" "localhost").1,
   (c6_normalization "localhost" "localhost").2.2.2.2.2.1⟩

/-! ## Claim C7 — only the first list entry is used -/

/-- A concrete response entry with the documented fixture values scaled to
integers. -/
def entryA : PollList :=
  { components := { co := 201, no := 1, no2 := 77, o3 := 68, so2 := 64
                    pm2_5 := 5, pm10 := 54, nh3 := 12 }
    main := { aqi := 2 } }

/-- A second, different concrete response entry. -/
def entryB : PollList :=
  { components := { co := 9, no := 9, no2 := 9, o3 := 9, so2 := 9
                    pm2_5 := 9, pm10 := 9, nh3 := 9 }
    main := { aqi := 5 } }

/-- Claim C7: for any upstream response with at least one entry, unpacking
depends only on entry 0: the lib.rs `PollResponse::unpack` (at any fixed
capture time) and the inline extraction of the main.rs loop give identical
results — identical air-quality index and identical eight pollutant values —
for two responses sharing entry 0, whatever the trailing entries are. -/
theorem c7_first_entry_only (entry : PollList) (rest1 rest2 : List PollList)
    (now : Nat) :
    PollResponse.unpack ⟨entry :: rest1⟩ now = PollResponse.unpack ⟨entry :: rest2⟩ now ∧
    Bin.extractFirst ⟨entry :: rest1⟩ = Bin.extractFirst ⟨entry :: rest2⟩ :=
  ⟨rfl, rfl⟩

/-- Witness for `c7_first_entry_only`: a trailing entry makes no difference. -/
theorem c7_first_entry_only_witness :
    PollResponse.unpack ⟨[entryA, entryB]⟩ 5 = PollResponse.unpack ⟨[entryA]⟩ 5 ∧
    Bin.extractFirst ⟨[entryA, entryB]⟩ = Bin.extractFirst ⟨[entryA]⟩ :=
  c7_first_entry_only entryA [entryB] [] 5

/-! ## Claim C9 — the empty response list is unhandled -/

/-- Claim C9: a pollution response with an empty list is not handled: the
lib.rs `PollResponse::unpack` (whose Rust return type `PollUpdate` has no
error channel) and the inline `list[0]` indexing of the main.rs loop both
panic — modeled by `none` — instead of returning an error. -/
theorem c9_empty_list_panics (now : Nat) :
    PollResponse.unpack ⟨[]⟩ now = none ∧ Bin.extractFirst ⟨[]⟩ = none :=
  ⟨rfl, rfl⟩

/-- Witness for `c9_empty_list_panics` at capture time 0. -/
theorem c9_empty_list_panics_witness :
    PollResponse.unpack ⟨[]⟩ 0 = none ∧ Bin.extractFirst ⟨[]⟩ = none :=
  c9_empty_list_panics 0

/-! ## Claim C10 — malformed numeric inputs fall back to defaults -/

/-- Claim C10: building the configuration from the environment never fails
because of malformed numeric inputs — the only error source of `parse_env`
(both versions) is the geocoding path taken when a zip code is set; and for
every non-numeric poll-interval string the resulting timing is the default
3600, and for every non-numeric (or beyond-`u8`) max-retry string the
resulting max retries is the default 3, silently. -/
theorem c10_numeric_defaults (geo : GeoFn) (env : Env) :
    (∀ e, (Lib.Config.parse_env geo env).1 = .error e → ∃ z, env.pollZip = some z) ∧
    (∀ e, (Bin.Config.parse_env geo env).1 = .error e → ∃ z, env.pollZip = some z) ∧
    (env.pollZip = none →
      (∃ cfg, Lib.Config.parse_env geo env = (.ok cfg, []) ∧
        (∀ s, env.pollTiming = some s → parseU64 s = none → cfg.timing = 3600) ∧
        (∀ s, env.maxRetry = some s → parseU8 s = none → cfg.max_retry = 3)) ∧
      (∃ cfg, Bin.Config.parse_env geo env = (.ok cfg, []) ∧
        (∀ s, env.pollTiming = some s → parseU64 s = none → cfg.timing = 3600) ∧
        (∀ s, env.maxRetry = some s → parseU8 s = none → cfg.max_retry = 3))) := by
  refine ⟨?_, ?_, ?_⟩
  · intro e he
    cases hz : env.pollZip with
    | none =>
      rw [Lib.parse_env_nozip geo env hz] at he
      simp at he
    | some z => exact ⟨z, rfl⟩
  · intro e he
    cases hz : env.pollZip with
    | none =>
      rw [Bin.binParse_env_nozip geo env hz] at he
      simp at he
    | some z => exact ⟨z, rfl⟩
  · intro hz
    constructor
    · refine ⟨_, Lib.parse_env_nozip geo env hz, ?_, ?_⟩
      · intro s hs hbad
        rw [(Lib.parseEnvRest_spec env _).2.2.1, hs]
        simp [hbad]
      · intro s hs hbad
        rw [(Lib.parseEnvRest_spec env _).2.2.2.1, hs]
        simp [hbad]
    · refine ⟨_, Bin.binParse_env_nozip geo env hz, ?_, ?_⟩
      · intro s hs hbad
        rw [(Bin.binParseEnvRest_spec env _).2.2.1, hs]
        simp [hbad]
      · intro s hs hbad
        rw [(Bin.binParseEnvRest_spec env _).2.2.2.1, hs]
        simp [hbad]

/-- A geocoding endpoint stub that always answers with a fixed location. -/
def geoOkStub : GeoFn :=
  fun _ _ _ => .ok { zip := "10001", name := "New York", lat := 40, lon := -74
                     country := "US" }

/-- A geocoding endpoint stub that always fails with HTTP 401. -/
def geoErrStub : GeoFn := fun _ _ _ => .error (.status 401 "Unauthorized")

/-- An environment with only the poll-timing and max-retry variables set, to
non-numeric and out-of-range text respectively. -/
def envBadNumbers : Env :=
  { apiKey := none, pollZip := none, pollCountry := none
    pollTiming := some "abc", dbName := none, dbServer := none
    dbUser := none, dbPass := none, maxRetry := some "999", token := none }

/-- Witness for `c10_numeric_defaults`: with the poll interval set to the
non-numeric `"abc"` and max retries to the out-of-`u8`-range `"999"`, both
parse_env versions succeed and silently yield timing 3600 and max retries 3. -/
theorem c10_numeric_defaults_witness :
    (∃ cfg, Lib.Config.parse_env geoErrStub envBadNumbers = (.ok cfg, []) ∧
      cfg.timing = 3600 ∧ cfg.max_retry = 3) ∧
    (∃ cfg, Bin.Config.parse_env geoErrStub envBadNumbers = (.ok cfg, []) ∧
      cfg.timing = 3600 ∧ cfg.max_retry = 3) := by
  obtain ⟨-, -, h⟩ := c10_numeric_defaults geoErrStub envBadNumbers
  obtain ⟨⟨cfg1, h1, ht1, hm1⟩, ⟨cfg2, h2, ht2, hm2⟩⟩ := h rfl
  exact ⟨⟨cfg1, h1, ht1 "abc" rfl (by decide), hm1 "999" rfl (by decide)⟩,
         ⟨cfg2, h2, ht2 "abc" rfl (by decide), hm2 "999" rfl (by decide)⟩⟩

/-! ## Claim C8 — defaults of the built configuration -/

/-- Claim C8: with the optional inputs absent (country, poll interval, max
retries, sink database name, sink URL), the configuration produced by
`parse_env` — the lib.rs version and the main.rs version alike, the latter
overwriting the initial `timing: 60` of its `Config::new` — has poll interval
3600 and max retries 3, yields sink database name `"test"` and sink URL
`"http://localhost:8086"`, and the geocoding call for the supplied postal code
is made with the default country `"US"`. -/
theorem c8_defaults (geo : GeoFn) (env : Env) (z : String) (loc : ZipLoc)
    (hc : env.pollCountry = none) (ht : env.pollTiming = none)
    (hm : env.maxRetry = none) (hn : env.dbName = none) (hs : env.dbServer = none)
    (hz : env.pollZip = some z)
    (hg : geo z "US" (env.apiKey.getD "NOAPISET") = .ok loc) :
    (∃ cfg, Lib.Config.parse_env geo env
        = (.ok cfg, [⟨z, "US", env.apiKey.getD "NOAPISET"⟩]) ∧
      cfg.timing = 3600 ∧ cfg.max_retry = 3 ∧ cfg.get_dbname = "test" ∧
      cfg.get_dbserver = "http://localhost:8086" ∧ cfg.location = some loc) ∧
    (∃ cfg, Bin.Config.parse_env geo env
        = (.ok cfg, [⟨z, "US", env.apiKey.getD "NOAPISET"⟩]) ∧
      cfg.timing = 3600 ∧ cfg.max_retry = 3 ∧ cfg.get_dbname = "test" ∧
      cfg.get_dbserver = "http://localhost:8086" ∧ cfg.location = some loc) := by
  have hg1 : geo z (env.pollCountry.getD "US") (env.apiKey.getD "NOAPISET") = .ok loc := by
    rw [hc]; exact hg
  constructor
  · obtain ⟨ha, hl, htm, hmr, hdn, hds⟩ := Lib.parseEnvRest_spec env
      ((match env.apiKey with
        | some k => Lib.Config.new.set_key k
        | none => Lib.Config.new).set_loc loc)
    refine ⟨_, by rw [Lib.parse_env_zip_ok geo env z loc hz hg1, hc]; rfl, ?_, ?_, ?_, ?_, ?_⟩
    · rw [htm, ht]; decide
    · rw [hmr, hm]; decide
    · rw [Lib.Config.get_dbname, hdn, hn]
      cases env.apiKey <;> rfl
    · rw [Lib.Config.get_dbserver, hds, hs]
      cases env.apiKey <;> rfl
    · rw [hl]
      cases env.apiKey <;> rfl
  · obtain ⟨ha, hl, htm, hmr, hdn, hds⟩ := Bin.binParseEnvRest_spec env
      ((match env.apiKey with
        | some k => Bin.Config.new.set_key k
        | none => Bin.Config.new).set_loc loc)
    refine ⟨_, by rw [Bin.binParse_env_zip_ok geo env z loc hz hg1, hc]; rfl, ?_, ?_, ?_, ?_, ?_⟩
    · rw [htm, ht]; decide
    · rw [hmr, hm]; decide
    · rw [Bin.Config.get_dbname, hdn, hn]
      cases env.apiKey <;> rfl
    · rw [Bin.Config.get_dbserver, hds, hs]
      cases env.apiKey <;> rfl
    · rw [hl]
      cases env.apiKey <;> rfl

/-- An environment with an API key and a postal code set and every optional
input absent. -/
def envOnlyRequired : Env :=
  { apiKey := some "k", pollZip := some "10001", pollCountry := none
    pollTiming := none, dbName := none, dbServer := none
    dbUser := none, dbPass := none, maxRetry := none, token := none }

/-- Witness for `c8_defaults` on `envOnlyRequired` with the always-succeeding
geocoding stub. -/
theorem c8_defaults_witness :
    ∃ cfg, Lib.Config.parse_env geoOkStub envOnlyRequired
        = (.ok cfg, [⟨"10001", "US", "k"⟩]) ∧
      cfg.timing = 3600 ∧ cfg.max_retry = 3 ∧ cfg.get_dbname = "test" ∧
      cfg.get_dbserver = "http://localhost:8086" ∧
      cfg.location = some { zip := "10001", name := "New York", lat := 40
                            lon := -74, country := "US" } :=
  (c8_defaults geoOkStub envOnlyRequired "10001"
    { zip := "10001", name := "New York", lat := 40, lon := -74, country := "US" }
    rfl rfl rfl rfl rfl rfl rfl).1

/-! ## Claim C4 — the missing-key fatal versus the geocoding call -/

/-- An environment with a postal code set but no API key. -/
def envZipNoKey : Env :=
  { apiKey := none, pollZip := some "10001", pollCountry := none
    pollTiming := none, dbName := none, dbServer := none
    dbUser := none, dbPass := none, maxRetry := none, token := none }

/-- An environment with nothing set at all. -/
def envAllUnset : Env :=
  { apiKey := none, pollZip := none, pollCountry := none
    pollTiming := none, dbName := none, dbServer := none
    dbUser := none, dbPass := none, maxRetry := none, token := none }

/-- Claim C4, counterexample to the claim as stated: with the API key absent
but a postal code supplied, startup does attempt a geocoding network call
(with the sentinel key `"NOAPISET"`) during `parse_env`, before the API-key
check can fire: when the call succeeds the "API key not set" fatal is reached
only after it, and when the call fails startup aborts with the
configuration-parse fatal instead — in both cases the recorded network
traffic is nonempty. -/
theorem c4_counterexample :
    (Bin.startup geoOkStub envZipNoKey).1 = .fatalApiKey ∧
    (Bin.startup geoOkStub envZipNoKey).2 = [⟨"10001", "US", "NOAPISET"⟩] ∧
    (Bin.startup geoErrStub envZipNoKey).1
        = .fatalParse (.status 401 "Unauthorized") ∧
    (Bin.startup geoErrStub envZipNoKey).2 = [⟨"10001", "US", "NOAPISET"⟩] :=
  ⟨rfl, rfl, rfl, rfl⟩

/-- Claim C4 as amended: if the API key input is absent and no postal code is
supplied, startup reaches the "API key not set" fatal with no network call
attempted; if a postal code is supplied, exactly one geocoding call (with the
sentinel key `"NOAPISET"` and the defaulted-or-given country) is attempted
first, and the "API key not set" fatal is reached only afterwards — or not at
all when the call fails, in which case the configuration-parse fatal fires. -/
theorem c4_key_check_after_geocode (geo : GeoFn) (env : Env)
    (hk : env.apiKey = none) :
    (env.pollZip = none → Bin.startup geo env = (.fatalApiKey, [])) ∧
    (∀ z, env.pollZip = some z →
      (Bin.startup geo env).2 = [⟨z, env.pollCountry.getD "US", "NOAPISET"⟩] ∧
      (∀ loc, geo z (env.pollCountry.getD "US") "NOAPISET" = .ok loc →
        (Bin.startup geo env).1 = .fatalApiKey) ∧
      (∀ e, geo z (env.pollCountry.getD "US") "NOAPISET" = .error e →
        (Bin.startup geo env).1 = .fatalParse e)) := by
  have hakey : ∀ loc, (Bin.parseEnvRest env ((match env.apiKey with
      | some k => Bin.Config.new.set_key k
      | none => Bin.Config.new).set_loc loc)).apikey = none := by
    intro loc
    rw [(Bin.binParseEnvRest_spec env _).1, hk]
    rfl
  constructor
  · intro hz
    rw [Bin.startup, Bin.binParse_env_nozip geo env hz]
    have : (Bin.parseEnvRest env (match env.apiKey with
        | some k => Bin.Config.new.set_key k
        | none => Bin.Config.new)).apikey = none := by
      rw [(Bin.binParseEnvRest_spec env _).1, hk]
      rfl
    simp [this]
  · intro z hz
    have hgetd : env.apiKey.getD "NOAPISET" = "NOAPISET" := by rw [hk]; rfl
    refine ⟨?_, ?_, ?_⟩
    · cases hgeo : geo z (env.pollCountry.getD "US") "NOAPISET" with
      | error e =>
        rw [Bin.startup, Bin.binParse_env_zip_err geo env z e hz (by rw [hgetd]; exact hgeo),
          hgetd]
      | ok loc =>
        rw [Bin.startup, Bin.binParse_env_zip_ok geo env z loc hz (by rw [hgetd]; exact hgeo),
          hgetd]
        simp [hakey loc]
    · intro loc hgeo
      rw [Bin.startup, Bin.binParse_env_zip_ok geo env z loc hz (by rw [hgetd]; exact hgeo)]
      simp [hakey loc]
    · intro e hgeo
      rw [Bin.startup, Bin.binParse_env_zip_err geo env z e hz (by rw [hgetd]; exact hgeo)]

/-- Witness for `c4_key_check_after_geocode`: with nothing set at all, startup
is the "API key not set" fatal with an empty network trace. -/
theorem c4_key_check_after_geocode_witness :
    Bin.startup geoErrStub envAllUnset = (.fatalApiKey, []) :=
  (c4_key_check_after_geocode geoErrStub envAllUnset rfl).1 rfl

end PollutionClient
